import Mathlib

/-!
Shallow embedding of the conversational dispatch engine of the
`itmo_chat_bot` repository (`app/internal/services/fsm.py` and the
collaborators it drives).  External collaborators (redis session store,
postgres-backed catalog and notes repositories, the OpenAI answering
service, the telegram messaging client) are modelled as an environment of
oracles plus an explicit system state threaded through every call; each
successful external call is recorded in a trace so that call order and
call counts can be stated.  Fallible code is modelled with
`Except Unit`; an uncaught Python exception is an `.error ()` value.
Outbound keyboards/markup are abstracted away: a sent message is recorded
as its chat id and text, which is all the verified claims mention.
-/

/-- Source `States` enumeration from `app/pkg/models/app/fsm/__init__.py`. -/
inductive States where
  | MAIN_MENU
  | QUESTIONS
  | RECOMMENDATION
deriving DecidableEq, Repr

/-- String value of each enum member, as declared in the source
(`MAIN_MENU = "main_menu"` etc.). -/
def States.value : States → String
  | .MAIN_MENU => "main_menu"
  | .QUESTIONS => "questions"
  | .RECOMMENDATION => "recommendation"

/-- Modelled from the spec: the shared pydantic `BaseModel`/`BaseEnum` base
classes (`app.pkg.models.base`) are not in the source tree.  Per the spec's
data model, state-enum members are identified with their string values in
routing-table keys and in the serialized session record.  `ofValue` is the
inverse of `States.value` used by pydantic enum coercion. -/
def States.ofValue (s : String) : Option States :=
  if s = "main_menu" then some .MAIN_MENU
  else if s = "questions" then some .QUESTIONS
  else if s = "recommendation" then some .RECOMMENDATION
  else none

/-- Source `StateInformation` pydantic model: one optional `state` field. -/
structure StateInformation where
  state : Option States
deriving DecidableEq, Repr

/-- Source `SupportedProgramResponse`: catalog entry (name, website URL); the id
field is never read by the dispatch engine and is omitted. -/
structure Program where
  name : String
  website_url : String
deriving DecidableEq, Repr

/-- Source `RecommendationResponse` returned by
`OpenAIService.provide_recommendation`. -/
structure RecommendationResponse where
  recommendation : String
  recommended_program : String
deriving DecidableEq, Repr

/-- Model of `TelegramAPISendMessageResponse` for a successfully sent
message: the chat it went to and the text that was sent. -/
structure SendResult where
  chat_id : Nat
  text : String
deriving DecidableEq, Repr

/-- Telegram `User` (only the id is read). -/
structure User where
  id : Nat
deriving DecidableEq, Repr

/-- Telegram `Chat` (only the id is read). -/
structure Chat where
  id : Nat
deriving DecidableEq, Repr

/-- Telegram `Message`: the engine reads `from_`, `chat` and `text`. -/
structure Message where
  from_ : Option User
  chat : Chat
  text : Option String
deriving DecidableEq, Repr

/-- Telegram `Update`: the engine reads only the optional `message`. -/
structure Update where
  message : Option Message
deriving DecidableEq, Repr

/-- Source `UpdateTypes` enumeration (only `TEXT` exists). -/
inductive UpdateTypes where
  | TEXT
deriving DecidableEq, Repr

/-- The six bound handler methods of `FSMService`, named as in the source. -/
inductive Handler where
  | startCommand
  | questionAboutProgram
  | getRecommendation
  | returnToMainMenu
  | question
  | recommendation
deriving DecidableEq, Repr

/-- Source `FSMRouter` dataclass: a handler together with a validator over the
optional current `StateInformation`. -/
structure FSMRouter where
  handler : Handler
  validator : Option StateInformation → Bool

/-- A redis hash record: field/value pairs. -/
abbrev Record := List (String × String)

/-- The redis keyspace: every numeric key holds a (possibly empty) hash. -/
abbrev Store := Nat → Record

/-- Trace events: one per successful external call made by the engine. -/
inductive Event where
  | redisDelete (key : Nat)
  | redisHmset (key : Nat) (mapping : Record)
  | getPrograms
  | createSpecific (userId : Nat) (specific : String)
  | getSpecifics (userId : Nat)
  | answerQuestion (websites : List String) (question : Option String)
  | provideRecommendation (websites : List String) (specifics : List String)
      (programs : List String)
  | sendMessage (chatId : Nat) (text : String)
deriving DecidableEq, Repr

/-- Environment of external collaborators: catalog contents, oracle
answers, and one availability flag per fallible collaborator call. -/
structure Env where
  programs : List Program
  catalogOk : Bool
  notesCreateOk : Bool
  notesListOk : Bool
  sendOk : Bool
  answerOk : Bool
  recommendOk : Bool
  answer : String
  recommendationResponse : RecommendationResponse

/-- Mutable world threaded through a `process_update` run: the redis
store, the `user_specifics` table rows in insertion order, and the trace
of successful external calls. -/
structure Sys where
  redis : Store
  notes : List (Nat × String)
  trace : List Event

/-- Set one field of a hash record, keeping the others (hash fields are
unique, so the first occurrence is the occurrence). -/
def recSet : Record → String → String → Record
  | [], f, v => [(f, v)]
  | (g, w) :: rest, f, v =>
    if g = f then (f, v) :: rest else (g, w) :: recSet rest f v

/-- Redis `HSET key mapping`: sets the given fields of the hash and leaves
every other field of the hash in place (merge, not replace). -/
def recHmset (old mapping : Record) : Record :=
  mapping.foldl (fun acc p => recSet acc p.1 p.2) old

/-- Apply an `HSET mapping` at one key of the store. -/
def storeHmset (st : Store) (k : Nat) (mapping : Record) : Store :=
  fun k' => if k' = k then recHmset (st k) mapping else st k'

/-- Redis `DEL key`. -/
def storeDelete (st : Store) (k : Nat) : Store :=
  fun k' => if k' = k then [] else st k'

/-- Redis `HGETALL key` (an absent key reads as the empty hash). -/
def hgetall (st : Store) (k : Nat) : Record := st k

/-- Source `update.message.from_.id if update.message.from_ else
update.message.chat.id`, the client-id expression every handler opens
with. -/
def clientIdOf (m : Message) : Nat :=
  match m.from_ with
  | some f => f.id
  | none => m.chat.id

/-- Modelled from the spec: pydantic validation of `StateInformation`
against the `States` enumeration (the shared `BaseModel` base class is not
in the source tree).  Parsing fails (`ValidationError`) exactly when a
stored `state` value is not a member of the enumeration; an absent
`state` field yields `state = None`; extra fields are ignored. -/
def parseStateInformation (rec : Record) : Except Unit StateInformation :=
  match rec.lookup "state" with
  | none => .ok ⟨none⟩
  | some v =>
    match States.ofValue v with
    | some st => .ok ⟨some st⟩
    | none => .error ()

/-- Source `FSMService.get_client_state_information`: read the client's hash; an
empty hash means no state (`None`); a hash that fails pydantic validation
is caught (`pydantic.ValidationError`), logged and returned as `None`.
Nothing else in the body can fail, so the resolver is a total function of
the store (`keys_to_delete` is always the empty list in the source, so no
`hdel` call ever happens). -/
def get_client_state_information (st : Store) (client_id : Nat) :
    Option StateInformation :=
  let response := hgetall st client_id
  if response = [] then
    none
  else
    match parseStateInformation response with
    | .ok si => some si
    | .error _ => none

/-- The `__text_routing` table built in `FSMService.__init__`, keyed by
literal message text; every registered validator is `lambda _: True`. -/
def text_routing (t : String) : Option FSMRouter :=
  if t = "/start" then
    some ⟨.startCommand, fun _ => true⟩
  else if t = "❓ Задать вопрос о программе" then
    some ⟨.questionAboutProgram, fun _ => true⟩
  else if t = "❗️ Получить рекоммендацию" then
    some ⟨.getRecommendation, fun _ => true⟩
  else if t = "Вернуться в главное меню" then
    some ⟨.returnToMainMenu, fun _ => true⟩
  else
    none

/-- The `__state_routing` table built in `FSMService.__init__`, keyed by
`States.*.value`; every registered validator is `lambda _: True`. -/
def state_routing (s : String) : Option FSMRouter :=
  if s = States.QUESTIONS.value then
    some ⟨.question, fun _ => true⟩
  else if s = States.RECOMMENDATION.value then
    some ⟨.recommendation, fun _ => true⟩
  else
    none

/-- Source `dict.get` on `__text_routing` applied to the optional
`update.message.text` (`get(None)` finds nothing). -/
def text_routing_lookup (t : Option String) : Option FSMRouter :=
  match t with
  | none => none
  | some s => text_routing s

/-- Source `dict.get` on `__state_routing` applied to the optional
`StateInformation.state` enum member, which compares equal to its string
value (string-valued enum). -/
def state_routing_lookup (st : Option States) : Option FSMRouter :=
  match st with
  | none => none
  | some s => state_routing s.value

/-- Source `FSMService.__determine_update_type`: a `TEXT` update needs a truthy
`update.message` and a truthy (present and non-empty) `update.message.text`;
anything else raises `ValueError`. -/
def determine_update_type (u : Update) : Except Unit UpdateTypes :=
  match u.message with
  | some m =>
    match m.text with
    | some t => if t = "" then .error () else .ok .TEXT
    | none => .error ()
  | none => .error ()

/-- Source `FSMService.__process_message_update`: resolve the handler for a text
update.  Text routing is consulted first; on a text-table hit whose
validator rejects, the default handler is returned.  Otherwise the state
table is consulted via `state.state`; when no state was resolved
(`state is None`) the attribute access `state.state` raises
`AttributeError`, modelled as `.error ()`. -/
def process_message_update (st : Store) (u : Update) : Except Unit Handler :=
  match u.message with
  | none => .error ()
  | some m =>
    let client_id := clientIdOf m
    let state := get_client_state_information st client_id
    match text_routing_lookup m.text with
    | some router =>
      if router.validator state then .ok router.handler
      else .ok .returnToMainMenu
    | none =>
      match state with
      | none => .error ()
      | some si =>
        match state_routing_lookup si.state with
        | some router =>
          if router.validator (some si) then .ok router.handler
          else .ok .returnToMainMenu
        | none => .ok .returnToMainMenu

/-- Source `FSMService.__process_update_based_on_its_type`: dispatch on the
update type (only `TEXT` exists). -/
def process_update_based_on_its_type (st : Store) (u : Update)
    (t : UpdateTypes) : Except Unit Handler :=
  match t with
  | .TEXT => process_message_update st u

/-- Source `SupportedProgrammsService.get_programs` (postgres-backed catalog):
may fail with a database error; an empty catalog is a plain empty list. -/
def getProgramsOp (env : Env) (s : Sys) : Except Unit (List Program) × Sys :=
  if env.catalogOk then
    (.ok env.programs, { s with trace := s.trace ++ [.getPrograms] })
  else
    (.error (), s)

/-- Source `TelegramClient.send_message` abstracted to chat id and text: on
success it returns the sent-message record and is traced; on a platform
failure it raises. -/
def sendMessageOp (env : Env) (chat_id : Nat) (text : String) (s : Sys) :
    Except Unit SendResult × Sys :=
  if env.sendOk then
    (.ok ⟨chat_id, text⟩,
      { s with trace := s.trace ++ [.sendMessage chat_id text] })
  else
    (.error (), s)

/-- Source `UserSpecificsService.create_user_specific`: inserts one row into
`user_specifics`. -/
def createSpecificOp (env : Env) (user_id : Nat) (specific : String)
    (s : Sys) : Except Unit Unit × Sys :=
  if env.notesCreateOk then
    (.ok (),
      { s with
        notes := s.notes ++ [(user_id, specific)],
        trace := s.trace ++ [.createSpecific user_id specific] })
  else
    (.error (), s)

/-- Insertion sort by the note text, modelling the repository's
`order by specific` clause in `read_listed`. -/
def insertSorted (x : String) : List String → List String
  | [] => [x]
  | y :: ys => if x ≤ y then x :: y :: ys else y :: insertSorted x ys

/-- Sort a list of note texts, modelling `order by specific`. -/
def sortSpecifics : List String → List String
  | [] => []
  | x :: xs => insertSorted x (sortSpecifics xs)

/-- Source `UserSpecificsService.get_user_specifics`: the user's rows ordered by
the `specific` column (`EmptyResult` is caught, so an empty list is a
plain result, not an error). -/
def getSpecificsOp (env : Env) (user_id : Nat) (s : Sys) :
    Except Unit (List String) × Sys :=
  if env.notesListOk then
    (.ok (sortSpecifics ((s.notes.filter (fun p => p.1 = user_id)).map
        (fun p => p.2))),
      { s with trace := s.trace ++ [.getSpecifics user_id] })
  else
    (.error (), s)

/-- Source `OpenAIService.answer_question`: the answer oracle; any client error
is logged and re-raised. -/
def answerQuestionOp (env : Env) (websites : List String)
    (question : Option String) (s : Sys) : Except Unit String × Sys :=
  if env.answerOk then
    (.ok env.answer,
      { s with trace := s.trace ++ [.answerQuestion websites question] })
  else
    (.error (), s)

/-- Source `OpenAIService.provide_recommendation`: the recommendation oracle; any
client error is logged and re-raised. -/
def provideRecommendationOp (env : Env) (websites specifics programs :
    List String) (s : Sys) : Except Unit RecommendationResponse × Sys :=
  if env.recommendOk then
    (.ok env.recommendationResponse,
      { s with trace := s.trace ++
          [.provideRecommendation websites specifics programs] })
  else
    (.error (), s)

/-- Redis `HSET` as an infallible state effect (the session store itself
is data in this embedding; its network failures are outside the model). -/
def redisHmsetOp (key : Nat) (mapping : Record) (s : Sys) : Sys :=
  { s with
    redis := storeHmset s.redis key mapping,
    trace := s.trace ++ [.redisHmset key mapping] }

/-- Redis `DEL` as an infallible state effect. -/
def redisDeleteOp (key : Nat) (s : Sys) : Sys :=
  { s with
    redis := storeDelete s.redis key,
    trace := s.trace ++ [.redisDelete key] }

/-- The serialized `StateInformation(state=st).to_dict(exclude_none=True)`
mapping written to redis by the state-writing handlers. -/
def stateMapping (st : States) : Record :=
  [("state", st.value)]

/-- Text of the fixed main-menu message. -/
def mainMenuText : String := "С чем я могу помочь?"

/-- Source `FSMService.__process_return_to_main_menu`: set state `MAIN_MENU`,
send the fixed menu.  Reading `update.message.from_` on an update with no
message raises `AttributeError`. -/
def process_return_to_main_menu (env : Env) (u : Update) (s : Sys) :
    Except Unit (List SendResult) × Sys :=
  match u.message with
  | none => (.error (), s)
  | some m =>
    let client_id := clientIdOf m
    let s1 := redisHmsetOp client_id (stateMapping .MAIN_MENU) s
    match sendMessageOp env client_id mainMenuText s1 with
    | (.ok r, s2) => (.ok [r], s2)
    | (.error e, s2) => (.error e, s2)

/-- Text of the `/start` greeting. -/
def startGreetingText : String :=
  "Привет!\nЯ помогу тебе с выбором программы для поступления в магистратуру ИТМО"

/-- Source `FSMService.__process_start_command`: delete the client's record, set
state `MAIN_MENU`, fetch the catalog, send the greeting (with one inline
link-button per program, abstracted away), then chain into
`__process_return_to_main_menu` and append its responses. -/
def process_start_command (env : Env) (u : Update) (s : Sys) :
    Except Unit (List SendResult) × Sys :=
  match u.message with
  | none => (.error (), s)
  | some m =>
    let client_id := clientIdOf m
    let s1 := redisDeleteOp client_id s
    let s2 := redisHmsetOp client_id (stateMapping .MAIN_MENU) s1
    match getProgramsOp env s2 with
    | (.error e, s3) => (.error e, s3)
    | (.ok _, s3) =>
      match sendMessageOp env client_id startGreetingText s3 with
      | (.error e, s4) => (.error e, s4)
      | (.ok r1, s4) =>
        match process_return_to_main_menu env u s4 with
        | (.ok rs, s5) => (.ok (r1 :: rs), s5)
        | (.error e, s5) => (.error e, s5)

/-- Prompt sent when entering the `QUESTIONS` state. -/
def questionPromptText : String :=
  "Задай свой вопрос о программе, и я постараюсь на него ответить!"

/-- Source `FSMService.__process_question_about_program`: set state `QUESTIONS`
and prompt for a question. -/
def process_question_about_program (env : Env) (u : Update) (s : Sys) :
    Except Unit (List SendResult) × Sys :=
  match u.message with
  | none => (.error (), s)
  | some m =>
    let client_id := clientIdOf m
    let s1 := redisHmsetOp client_id (stateMapping .QUESTIONS) s
    match sendMessageOp env client_id questionPromptText s1 with
    | (.ok r, s2) => (.ok [r], s2)
    | (.error e, s2) => (.error e, s2)

/-- Prompt sent when entering the `RECOMMENDATION` state. -/
def recommendPromptText : String :=
  "Расскажи мне про себя и я постараюсь подобрать тебе программу, которая тебе подойдет!"

/-- Source `FSMService.__process_get_recommendation`: set state `RECOMMENDATION`
and prompt the user to describe themselves. -/
def process_get_recommendation (env : Env) (u : Update) (s : Sys) :
    Except Unit (List SendResult) × Sys :=
  match u.message with
  | none => (.error (), s)
  | some m =>
    let client_id := clientIdOf m
    let s1 := redisHmsetOp client_id (stateMapping .RECOMMENDATION) s
    match sendMessageOp env client_id recommendPromptText s1 with
    | (.ok r, s2) => (.ok [r], s2)
    | (.error e, s2) => (.error e, s2)

/-- Interim message of the question handler. -/
def questionWaitText : String :=
  "Пожалуйста, подожди, я ищу ответ на твой вопрос..."

/-- Source `FSMService.__process_question`: send the interim wait message (its
send result is awaited but discarded), fetch the catalog, ask the
answering service with the catalog URLs and the raw
`update.message.text`, and return the single answer-message result.  No
state is written. -/
def process_question (env : Env) (u : Update) (s : Sys) :
    Except Unit (List SendResult) × Sys :=
  match u.message with
  | none => (.error (), s)
  | some m =>
    let client_id := clientIdOf m
    match sendMessageOp env client_id questionWaitText s with
    | (.error e, s1) => (.error e, s1)
    | (.ok _, s1) =>
      match getProgramsOp env s1 with
      | (.error e, s2) => (.error e, s2)
      | (.ok programs, s2) =>
        match answerQuestionOp env
            (programs.map (fun p => p.website_url)) m.text s2 with
        | (.error e, s3) => (.error e, s3)
        | (.ok response, s3) =>
          match sendMessageOp env client_id response s3 with
          | (.ok r, s4) => (.ok [r], s4)
          | (.error e, s4) => (.error e, s4)

/-- Interim message of the recommendation handler. -/
def recommendWaitText : String :=
  "Пожалуйста, подожди, я ищу подходящую для тебя программу..."

/-- Prefix of the second recommendation reply. -/
def recommendedProgramPrefix : String := "Рекомендованная программа: "

/-- Source `FSMService.__process_recommendation`, in source order: persist the
raw text as a note (`CreateUserSpecificCommand` validation rejects a
missing text with a `ValidationError` before any insert), list the user's
notes, fetch the catalog, call the recommendation service, and only then
send the interim wait message (discarded) followed by the two reply
messages that form the result.  No state is written. -/
def process_recommendation (env : Env) (u : Update) (s : Sys) :
    Except Unit (List SendResult) × Sys :=
  match u.message with
  | none => (.error (), s)
  | some m =>
    let client_id := clientIdOf m
    match m.text with
    | none => (.error (), s)
    | some t =>
      match createSpecificOp env client_id t s with
      | (.error e, s1) => (.error e, s1)
      | (.ok _, s1) =>
        match getSpecificsOp env client_id s1 with
        | (.error e, s2) => (.error e, s2)
        | (.ok user_specifics, s2) =>
          match getProgramsOp env s2 with
          | (.error e, s3) => (.error e, s3)
          | (.ok programs, s3) =>
            match provideRecommendationOp env
                (programs.map (fun p => p.website_url)) user_specifics
                (programs.map (fun p => p.name)) s3 with
            | (.error e, s4) => (.error e, s4)
            | (.ok response, s4) =>
              match sendMessageOp env client_id recommendWaitText s4 with
              | (.error e, s5) => (.error e, s5)
              | (.ok _, s5) =>
                match sendMessageOp env client_id
                    response.recommendation s5 with
                | (.error e, s6) => (.error e, s6)
                | (.ok r1, s6) =>
                  match sendMessageOp env client_id
                      (recommendedProgramPrefix ++
                        response.recommended_program) s6 with
                  | (.ok r2, s7) => (.ok [r1, r2], s7)
                  | (.error e, s7) => (.error e, s7)

/-- Dispatch a resolved handler to its implementation. -/
def runHandler (env : Env) (h : Handler) (u : Update) (s : Sys) :
    Except Unit (List SendResult) × Sys :=
  match h with
  | .startCommand => process_start_command env u s
  | .questionAboutProgram => process_question_about_program env u s
  | .getRecommendation => process_get_recommendation env u s
  | .returnToMainMenu => process_return_to_main_menu env u s
  | .question => process_question env u s
  | .recommendation => process_recommendation env u s

/-- Body of the `try` block of `FSMService.process_update`: classify the
update, resolve the handler, run it.  Classification and routing are pure
reads, so a failure there leaves the world unchanged. -/
def primaryAttempt (env : Env) (u : Update) (s : Sys) :
    Except Unit (List SendResult) × Sys :=
  match determine_update_type u with
  | .error e => (.error e, s)
  | .ok t =>
    match process_update_based_on_its_type s.redis u t with
    | .error e => (.error e, s)
    | .ok h => runHandler env h u s

/-- Source `FSMService.process_update`: run the primary attempt; on any raised
error run `__process_return_to_main_menu` as the recovery action; if that
also raises, the result is the empty list.  Nothing escapes, so the
function is total. -/
def process_update (env : Env) (u : Update) (s : Sys) :
    List SendResult × Sys :=
  match primaryAttempt env u s with
  | (.ok result, s') => (result, s')
  | (.error _, s1) =>
    match process_return_to_main_menu env u s1 with
    | (.ok result, s2) => (result, s2)
    | (.error _, s2) => ([], s2)

/-- Handler selection as the specification words it (the refinement
counterpart of `process_message_update`): text-trigger match first, then
state match, with the default handler in every remaining case — including
the sender-has-no-state, no-text-trigger case, which the source realizes
through an `AttributeError` caught by `process_update`. -/
def specSelectedHandler (st : Store) (m : Message) : Handler :=
  let client_id := clientIdOf m
  let state := get_client_state_information st client_id
  match text_routing_lookup m.text with
  | some router =>
    if router.validator state then router.handler else .returnToMainMenu
  | none =>
    match state with
    | none => .returnToMainMenu
    | some si =>
      match state_routing_lookup si.state with
      | some router =>
        if router.validator (some si) then router.handler
        else .returnToMainMenu
      | none => .returnToMainMenu

/-- Execute a handler with the engine's recovery policy: on failure fall
back to the default handler, and on a second failure reply with nothing. -/
def handleWith (env : Env) (h : Handler) (u : Update) (s : Sys) :
    List SendResult × Sys :=
  match runHandler env h u s with
  | (.ok result, s') => (result, s')
  | (.error _, s1) =>
    match process_return_to_main_menu env u s1 with
    | (.ok result, s2) => (result, s2)
    | (.error _, s2) => ([], s2)

/-- The messages actually sent in a trace, in order. -/
def sentMessages (tr : List Event) : List SendResult :=
  tr.filterMap (fun e =>
    match e with
    | .sendMessage c t => some ⟨c, t⟩
    | _ => none)

/-- Whether a trace event mutates the session store. -/
def isStoreMutation (e : Event) : Bool :=
  match e with
  | .redisDelete _ => true
  | .redisHmset _ _ => true
  | _ => false

/-- Store mutations of a trace, in order. -/
def storeMutations (tr : List Event) : List Event :=
  tr.filter isStoreMutation

/-- Prefix of a trace strictly before its first sent message. -/
def beforeFirstSend (tr : List Event) : List Event :=
  tr.takeWhile (fun e =>
    match e with
    | .sendMessage _ _ => false
    | _ => true)

/-- Number of answering-service question calls in a trace. -/
def answerQuestionCalls (tr : List Event) : Nat :=
  (tr.filter (fun e =>
    match e with
    | .answerQuestion _ _ => true
    | _ => false)).length

/-- A one-program catalog and fully available collaborators. -/
def envAllOk : Env :=
  { programs := [⟨"Искусственный интеллект", "https://ai.itmo.ru"⟩],
    catalogOk := true,
    notesCreateOk := true,
    notesListOk := true,
    sendOk := true,
    answerOk := true,
    recommendOk := true,
    answer := "Это ответ",
    recommendationResponse := ⟨"Это рекомендация", "Искусственный интеллект"⟩ }

/-- Same collaborators with the catalog database unavailable. -/
def envCatalogDown : Env :=
  { envAllOk with catalogOk := false }

/-- Same collaborators with the messaging platform unavailable. -/
def envSendDown : Env :=
  { envAllOk with sendOk := false }

/-- An empty session store. -/
def emptyStore : Store := fun _ => []

/-- Client 5 stored in the `QUESTIONS` state. -/
def storeQuestions : Store :=
  fun k => if k = 5 then [("state", "questions")] else []

/-- Client 5 stored in the `RECOMMENDATION` state. -/
def storeRecommendation : Store :=
  fun k => if k = 5 then [("state", "recommendation")] else []

/-- Client 5 with a stale record: a valid state plus a leftover field. -/
def storeStale : Store :=
  fun k => if k = 5 then [("state", "questions"), ("note", "x")] else []

/-- Client 5 with a record that fails state-enumeration validation. -/
def storeBadState : Store :=
  fun k => if k = 5 then [("state", "bogus")] else []

/-- A fresh world over a given store: no notes, empty trace. -/
def sys0 (st : Store) : Sys := ⟨st, [], []⟩

/-- A message from user 5 in chat 5 with the given optional text. -/
def msgFrom5 (t : Option String) : Message := ⟨some ⟨5⟩, ⟨5⟩, t⟩

/-- A text update from user 5. -/
def updText (t : String) : Update := ⟨some (msgFrom5 (some t))⟩

/-- An update with no message payload at all. -/
def updNoMessage : Update := ⟨none⟩

/-- An update with a message but no text (a photo or sticker, say). -/
def updNoText : Update := ⟨some ⟨none, ⟨9⟩, none⟩⟩

/-- The default handler raises exactly when the update has no message
(`AttributeError` on `update.message.from_`) or the messaging platform is
down; in particular whether it raises does not depend on the world it is
run against. -/
theorem return_to_main_menu_raises_iff (env : Env) (u : Update) (s : Sys) :
    (process_return_to_main_menu env u s).1 = .error () ↔
      (u.message = none ∨ env.sendOk = false) := by
  cases hm : u.message <;> cases hsend : env.sendOk <;>
    simp [process_return_to_main_menu, sendMessageOp, redisHmsetOp, hm, hsend]

/-- C1: if the selected handler's execution raises, `process_update`
catches the error, executes the default return-to-main-menu handler as a
second attempt and returns that handler's results; if the default handler
also raises, it returns the empty list; by construction nothing escapes
`process_update` (its codomain is a plain value, not an exceptional
one). -/
theorem C1_double_catch_recovery (env : Env) (u : Update) (s : Sys)
    (h : Handler) (e : Unit) (s1 : Sys)
    (hdet : determine_update_type u = .ok .TEXT)
    (hsel : process_message_update s.redis u = .ok h)
    (hrun : runHandler env h u s = (.error e, s1)) :
    (process_update env u s).1 =
      (match (process_return_to_main_menu env u s1).1 with
       | .ok result => result
       | .error _ => []) ∧
    (process_update env u s).2 = (process_return_to_main_menu env u s1).2 := by
  have hp : primaryAttempt env u s = (.error e, s1) := by
    simp [primaryAttempt, process_update_based_on_its_type, hdet, hsel, hrun]
  unfold process_update
  rw [hp]
  cases hd : process_return_to_main_menu env u s1 with
  | mk fst snd => cases fst <;> simp [hd]

/-- Witness for C1: with the catalog database down, `/start` raises inside
its handler, the default handler recovers, and the user still gets the
main-menu reply. -/
theorem C1_witness :
    (process_update envCatalogDown (updText "/start") (sys0 emptyStore)).1 =
      [⟨5, mainMenuText⟩] := by
  have h := C1_double_catch_recovery envCatalogDown (updText "/start")
    (sys0 emptyStore) .startCommand () _ rfl rfl rfl
  rw [h.1]
  rfl

/-- C10: the state resolver returns `None` on an empty stored record, and
returns `None` — instead of raising — when the stored record fails to
parse against the state enumeration. -/
theorem C10_resolver_fail_open (st : Store) (client_id : Nat) :
    (hgetall st client_id = [] →
      get_client_state_information st client_id = none) ∧
    (parseStateInformation (hgetall st client_id) = .error () →
      get_client_state_information st client_id = none) := by
  constructor
  · intro h
    simp [get_client_state_information, h]
  · intro h
    by_cases he : hgetall st client_id = []
    · simp [get_client_state_information, he]
    · simp [get_client_state_information, he, h]

/-- Witness for C10: a brand-new user resolves to `None`, and a corrupt
stored state value (`"bogus"`) also resolves to `None`. -/
theorem C10_witness :
    get_client_state_information emptyStore 7 = none ∧
    get_client_state_information storeBadState 5 = none :=
  ⟨(C10_resolver_fail_open emptyStore 7).1 rfl,
   (C10_resolver_fail_open storeBadState 5).2 rfl⟩

/-- C3 counterexample: for an update with no message field at all, the
claim's promised "default handler's output (the main-menu reply)" does not
happen — the default handler itself raises on the missing message, and
`process_update` returns the empty list, so the user gets no reply. -/
theorem C3_counterexample :
    determine_update_type updNoMessage = .error () ∧
    (process_return_to_main_menu envAllOk updNoMessage
      (sys0 emptyStore)).1 = .error () ∧
    (process_update envAllOk updNoMessage (sys0 emptyStore)).1 = [] := by
  refine ⟨rfl, rfl, rfl⟩

/-- C3 (amended): for every update the classifier rejects, `process_update`
never raises and equals the default-handler recovery action: when the
update still has a message, that is the default handler's main-menu
output; when the update has no message at all, the default handler itself
raises and the result is the empty list. -/
theorem C3_amended_unsupported_updates (env : Env) (u : Update) (s : Sys)
    (hdet : determine_update_type u = .error ()) :
    process_update env u s =
      (match process_return_to_main_menu env u s with
       | (.ok result, s2) => (result, s2)
       | (.error _, s2) => ([], s2)) ∧
    (u.message = none → (process_update env u s).1 = []) := by
  have hp : primaryAttempt env u s = (.error (), s) := by
    simp [primaryAttempt, hdet]
  constructor
  · unfold process_update
    rw [hp]
  · intro hm
    unfold process_update
    rw [hp]
    simp [process_return_to_main_menu, hm]

/-- Witness for C3: a message without text (a photo, say) falls through to
the default handler and yields the main-menu reply. -/
theorem C3_witness :
    (process_update envAllOk updNoText (sys0 emptyStore)).1 =
      [⟨9, mainMenuText⟩] := by
  have h := C3_amended_unsupported_updates envAllOk updNoText
    (sys0 emptyStore) rfl
  rw [h.1]
  rfl

/-- Routing refinement: for an update with a message, the source's handler
resolution either returns exactly the handler the specification selects,
or raises the no-state `AttributeError`; in the latter case the
specification's selection is the default handler. -/
theorem process_message_update_refines (st : Store) (u : Update)
    (m : Message) (hm : u.message = some m) :
    process_message_update st u = .ok (specSelectedHandler st m) ∨
    (process_message_update st u = .error () ∧
      specSelectedHandler st m = .returnToMainMenu) := by
  unfold process_message_update specSelectedHandler
  rw [hm]
  cases htr : text_routing_lookup m.text with
  | some router =>
    cases hv : router.validator
        (get_client_state_information st (clientIdOf m)) <;>
      simp [htr, hv]
  | none =>
    cases hst : get_client_state_information st (clientIdOf m) with
    | none => simp [htr, hst]
    | some si =>
      cases hsr : state_routing_lookup si.state with
      | some router =>
        cases hv : router.validator (some si) <;> simp [htr, hst, hsr, hv]
      | none => simp [htr, hst, hsr]

/-- C2: for every text-message update, `process_update` behaves exactly as
"run the handler selected by trigger priority (text triggers first, then
state routing, default otherwise — including when the sender has no
stored state), with the engine's default-handler recovery on failure". -/
theorem C2_trigger_priority (env : Env) (u : Update) (m : Message)
    (t : String) (s : Sys) (hm : u.message = some m) (ht : m.text = some t)
    (hne : t ≠ "") :
    (process_update env u s).1 =
      (handleWith env (specSelectedHandler s.redis m) u s).1 := by
  have hdet : determine_update_type u = .ok .TEXT := by
    simp [determine_update_type, hm, ht, hne]
  rcases process_message_update_refines s.redis u m hm with hok | ⟨herr, hdef⟩
  · have hp : primaryAttempt env u s =
        runHandler env (specSelectedHandler s.redis m) u s := by
      simp [primaryAttempt, process_update_based_on_its_type, hdet, hok]
    unfold process_update handleWith
    rw [hp]
  · have hp : primaryAttempt env u s = (.error (), s) := by
      simp [primaryAttempt, process_update_based_on_its_type, hdet, herr]
    unfold process_update handleWith
    rw [hp, hdef]
    simp only [runHandler]
    cases hd : process_return_to_main_menu env u s with
    | mk fst snd =>
      cases fst with
      | ok r => simp [hd]
      | error e =>
        cases e
        have hcond := (return_to_main_menu_raises_iff env u s).mp
          (by rw [hd])
        have hsend : env.sendOk = false := by
          rcases hcond with h1 | h1
          · rw [hm] at h1
            cases h1
          · exact h1
        have h2 : (process_return_to_main_menu env u snd).1 = .error () :=
          (return_to_main_menu_raises_iff env u snd).mpr (Or.inr hsend)
        cases hd2 : process_return_to_main_menu env u snd with
        | mk fst2 snd2 =>
          cases fst2 with
          | ok r2 =>
            rw [hd2] at h2
            cases h2
          | error e2 => simp [hd, hd2]

/-- Witness for C2: a plain non-trigger text from a brand-new user (no
stored state) is handled by the default handler and yields the main-menu
reply. -/
theorem C2_witness :
    (process_update envAllOk (updText "привет") (sys0 emptyStore)).1 =
      [⟨5, mainMenuText⟩] := by
  have h := C2_trigger_priority envAllOk (updText "привет")
    (msgFrom5 (some "привет")) "привет" (sys0 emptyStore) rfl rfl
    (by decide)
  rw [h]
  rfl

/-- C4: for a user stored in the `QUESTIONS` state sending non-command
text (text matching no literal trigger), `process_update` calls the
answering service exactly once with the user's raw text as the question,
returns exactly one send result (the answer), and leaves the stored
record — hence the `QUESTIONS` state — untouched. -/
theorem C4_questions_flow (env : Env) (u : Update) (m : Message)
    (t : String) (store : Store) (notes : List (Nat × String))
    (hm : u.message = some m) (ht : m.text = some t) (hne : t ≠ "")
    (htr : text_routing t = none)
    (hst : get_client_state_information store (clientIdOf m) =
      some ⟨some States.QUESTIONS⟩)
    (hc : env.catalogOk = true) (ha : env.answerOk = true)
    (hs : env.sendOk = true) :
    (process_update env u ⟨store, notes, []⟩).1 =
      [⟨clientIdOf m, env.answer⟩] ∧
    (process_update env u ⟨store, notes, []⟩).2.trace =
      [.sendMessage (clientIdOf m) questionWaitText,
       .getPrograms,
       .answerQuestion (env.programs.map (fun p => p.website_url)) (some t),
       .sendMessage (clientIdOf m) env.answer] ∧
    answerQuestionCalls (process_update env u ⟨store, notes, []⟩).2.trace
      = 1 ∧
    (process_update env u ⟨store, notes, []⟩).2.redis = store := by
  have hdet : determine_update_type u = .ok .TEXT := by
    simp [determine_update_type, hm, ht, hne]
  have hsel : process_message_update store u = .ok .question := by
    simp [process_message_update, hm, ht, text_routing_lookup, htr, hst,
      state_routing_lookup, state_routing, States.value]
  have hrun : process_question env u ⟨store, notes, []⟩ =
      (.ok [⟨clientIdOf m, env.answer⟩],
        ⟨store, notes,
         [.sendMessage (clientIdOf m) questionWaitText,
          .getPrograms,
          .answerQuestion (env.programs.map (fun p => p.website_url))
            (some t),
          .sendMessage (clientIdOf m) env.answer]⟩) := by
    simp [process_question, hm, ht, sendMessageOp, getProgramsOp,
      answerQuestionOp, hc, ha, hs]
  have hp : primaryAttempt env u ⟨store, notes, []⟩ =
      process_question env u ⟨store, notes, []⟩ := by
    simp [primaryAttempt, process_update_based_on_its_type, hdet, hsel,
      runHandler]
  unfold process_update
  rw [hp, hrun]
  refine ⟨rfl, rfl, rfl, rfl⟩

/-- Witness for C4: user 5 in state `QUESTIONS` asks a free-text question
and receives exactly the one answer message; the store is unchanged. -/
theorem C4_witness :
    (process_update envAllOk (updText "Какой проходной балл?")
      ⟨storeQuestions, [], []⟩).1 = [⟨5, "Это ответ"⟩] ∧
    (process_update envAllOk (updText "Какой проходной балл?")
      ⟨storeQuestions, [], []⟩).2.trace =
      [.sendMessage 5 questionWaitText,
       .getPrograms,
       .answerQuestion ["https://ai.itmo.ru"] (some "Какой проходной балл?"),
       .sendMessage 5 "Это ответ"] ∧
    answerQuestionCalls (process_update envAllOk
      (updText "Какой проходной балл?") ⟨storeQuestions, [], []⟩).2.trace
      = 1 ∧
    (process_update envAllOk (updText "Какой проходной балл?")
      ⟨storeQuestions, [], []⟩).2.redis = storeQuestions :=
  C4_questions_flow envAllOk (updText "Какой проходной балл?")
    (msgFrom5 (some "Какой проходной балл?")) "Какой проходной балл?"
    storeQuestions [] rfl rfl (by decide) rfl rfl rfl rfl rfl

/-- C5 counterexample: the claim quantifies over "arbitrary text", but a
user stored in the `RECOMMENDATION` state who sends the literal trigger
`/start` is captured by text routing first: no note is created and the
two results are the greeting and the menu, not the recommendation and the
program name. -/
theorem C5_counterexample :
    get_client_state_information storeRecommendation 5 =
      some ⟨some States.RECOMMENDATION⟩ ∧
    (process_update envAllOk (updText "/start")
      ⟨storeRecommendation, [], []⟩).2.notes = [] ∧
    (process_update envAllOk (updText "/start")
      ⟨storeRecommendation, [], []⟩).1 =
      [⟨5, startGreetingText⟩, ⟨5, mainMenuText⟩] := by
  refine ⟨rfl, rfl, rfl⟩

/-- C5 (amended): for a user stored in the `RECOMMENDATION` state sending
non-command text (text matching no literal trigger), `process_update`
creates exactly one note containing that text and returns exactly two
send results — the recommendation text first, then the message naming the
recommended program — and the stored record (state `RECOMMENDATION`)
is untouched. -/
theorem C5_recommendation_flow (env : Env) (u : Update) (m : Message)
    (t : String) (store : Store) (notes : List (Nat × String))
    (hm : u.message = some m) (ht : m.text = some t) (hne : t ≠ "")
    (htr : text_routing t = none)
    (hst : get_client_state_information store (clientIdOf m) =
      some ⟨some States.RECOMMENDATION⟩)
    (hnc : env.notesCreateOk = true) (hnl : env.notesListOk = true)
    (hc : env.catalogOk = true) (hr : env.recommendOk = true)
    (hs : env.sendOk = true) :
    (process_update env u ⟨store, notes, []⟩).2.notes =
      notes ++ [(clientIdOf m, t)] ∧
    (process_update env u ⟨store, notes, []⟩).1 =
      [⟨clientIdOf m, env.recommendationResponse.recommendation⟩,
       ⟨clientIdOf m, recommendedProgramPrefix ++
         env.recommendationResponse.recommended_program⟩] ∧
    (process_update env u ⟨store, notes, []⟩).2.redis = store := by
  have hdet : determine_update_type u = .ok .TEXT := by
    simp [determine_update_type, hm, ht, hne]
  have hsel : process_message_update store u = .ok .recommendation := by
    simp [process_message_update, hm, ht, text_routing_lookup, htr, hst,
      state_routing_lookup, state_routing, States.value]
  have hp : primaryAttempt env u ⟨store, notes, []⟩ =
      process_recommendation env u ⟨store, notes, []⟩ := by
    simp [primaryAttempt, process_update_based_on_its_type, hdet, hsel,
      runHandler]
  unfold process_update
  rw [hp]
  simp [process_recommendation, hm, ht, createSpecificOp, getSpecificsOp,
    getProgramsOp, provideRecommendationOp, sendMessageOp, hnc, hnl, hc,
    hr, hs]

/-- Witness for C5 (amended): user 5 in state `RECOMMENDATION` describes
themselves; one note is stored and exactly two replies come back, the
recommendation and then the program name. -/
theorem C5_witness :
    (process_update envAllOk (updText "Я люблю математику")
      ⟨storeRecommendation, [], []⟩).2.notes = [(5, "Я люблю математику")] ∧
    (process_update envAllOk (updText "Я люблю математику")
      ⟨storeRecommendation, [], []⟩).1 =
      [⟨5, "Это рекомендация"⟩,
       ⟨5, recommendedProgramPrefix ++ "Искусственный интеллект"⟩] ∧
    (process_update envAllOk (updText "Я люблю математику")
      ⟨storeRecommendation, [], []⟩).2.redis = storeRecommendation :=
  C5_recommendation_flow envAllOk (updText "Я люблю математику")
    (msgFrom5 (some "Я люблю математику")) "Я люблю математику"
    storeRecommendation [] rfl rfl (by decide) rfl rfl rfl rfl rfl rfl rfl

/-- C6: the recommendation handler's actual call order at a failing input
(user 5 stored in `RECOMMENDATION`, free text).  The interim "please
wait" message is sent only after `provide_recommendation` has already
returned — the code calls the answering service before the wait message,
while the specified (and clearly intended) order is wait message first,
answering service second. -/
theorem C6_call_order_at_failing_input :
    (process_update envAllOk (updText "Я люблю математику")
      ⟨storeRecommendation, [], []⟩).2.trace =
      [.createSpecific 5 "Я люблю математику",
       .getSpecifics 5,
       .getPrograms,
       .provideRecommendation ["https://ai.itmo.ru"] ["Я люблю математику"]
         ["Искусственный интеллект"],
       .sendMessage 5 recommendWaitText,
       .sendMessage 5 "Это рекомендация",
       .sendMessage 5 (recommendedProgramPrefix ++
         "Искусственный интеллект")] := by
  rfl

/-- C7 counterexample: on `/start` the very first store mutation — before
any message is sent — is a `DEL` of the user's record, and only then is
the fresh `MAIN_MENU` state written; so the new-state write is not the
only store mutation before the greeting, and the handler does delete
first. -/
theorem C7_counterexample :
    storeMutations (beforeFirstSend
      (process_start_command envAllOk (updText "/start")
        ⟨storeQuestions, [], []⟩).2.trace) =
      [.redisDelete 5, .redisHmset 5 [("state", "main_menu")]] ∧
    (storeMutations (beforeFirstSend
      (process_start_command envAllOk (updText "/start")
        ⟨storeQuestions, [], []⟩).2.trace)).head? =
      some (.redisDelete 5) := by
  refine ⟨rfl, rfl⟩

/-- C7 (amended): for every run of the `/start` handler, the store
mutations performed before the greeting is sent are exactly a delete of
the user's record followed by the fresh `MAIN_MENU` state write. -/
theorem C7_start_deletes_then_writes (env : Env) (u : Update) (m : Message)
    (store : Store) (notes : List (Nat × String))
    (hm : u.message = some m) :
    storeMutations (beforeFirstSend
      (process_start_command env u ⟨store, notes, []⟩).2.trace) =
      [.redisDelete (clientIdOf m),
       .redisHmset (clientIdOf m) (stateMapping States.MAIN_MENU)] := by
  cases hc : env.catalogOk <;> cases hsend : env.sendOk <;>
    simp [process_start_command, process_return_to_main_menu, hm,
      redisDeleteOp, redisHmsetOp, getProgramsOp, sendMessageOp, hc, hsend,
      storeMutations, beforeFirstSend, isStoreMutation]

/-- Witness for C7 (amended): concrete `/start` from user 5 with a stale
`QUESTIONS` record. -/
theorem C7_witness :
    storeMutations (beforeFirstSend
      (process_start_command envAllOk (updText "/start")
        ⟨storeQuestions, [], []⟩).2.trace) =
      [.redisDelete 5, .redisHmset 5 (stateMapping States.MAIN_MENU)] :=
  C7_start_deletes_then_writes envAllOk (updText "/start")
    (msgFrom5 (some "/start")) storeQuestions [] rfl

/-- Setting a field makes it readable back. -/
theorem recSet_lookup_self (rec : Record) (f v : String) :
    (recSet rec f v).lookup f = some v := by
  induction rec with
  | nil => simp [recSet, List.lookup]
  | cons p rest ih =>
    obtain ⟨g, w⟩ := p
    by_cases h : g = f
    · simp [recSet, h, List.lookup]
    · have hfg : (f == g) = false := beq_eq_false_iff_ne.mpr (Ne.symm h)
      simp [recSet, h, List.lookup, hfg, ih]

/-- Setting a field leaves every other field's value unchanged. -/
theorem recSet_lookup_other (rec : Record) (f v f' : String)
    (h : f' ≠ f) :
    (recSet rec f v).lookup f' = rec.lookup f' := by
  have hff : (f' == f) = false := beq_eq_false_iff_ne.mpr h
  induction rec with
  | nil => simp [recSet, List.lookup, hff]
  | cons p rest ih =>
    obtain ⟨g, w⟩ := p
    by_cases hg : g = f
    · subst hg
      simp [recSet, List.lookup, hff]
    · simp [recSet, hg, List.lookup, ih]

/-- The redis record each state-writing handler leaves behind: the state
write is an `HSET` of the single `state` field into the existing hash. -/
theorem return_to_main_menu_redis (env : Env) (u : Update) (m : Message)
    (s : Sys) (hm : u.message = some m) :
    (process_return_to_main_menu env u s).2.redis =
      storeHmset s.redis (clientIdOf m) (stateMapping States.MAIN_MENU) := by
  cases hsend : env.sendOk <;>
    simp [process_return_to_main_menu, hm, redisHmsetOp, sendMessageOp,
      hsend]

/-- Same for the enter-`QUESTIONS` handler. -/
theorem question_about_program_redis (env : Env) (u : Update) (m : Message)
    (s : Sys) (hm : u.message = some m) :
    (process_question_about_program env u s).2.redis =
      storeHmset s.redis (clientIdOf m) (stateMapping States.QUESTIONS) := by
  cases hsend : env.sendOk <;>
    simp [process_question_about_program, hm, redisHmsetOp, sendMessageOp,
      hsend]

/-- Same for the enter-`RECOMMENDATION` handler. -/
theorem get_recommendation_redis (env : Env) (u : Update) (m : Message)
    (s : Sys) (hm : u.message = some m) :
    (process_get_recommendation env u s).2.redis =
      storeHmset s.redis (clientIdOf m)
        (stateMapping States.RECOMMENDATION) := by
  cases hsend : env.sendOk <;>
    simp [process_get_recommendation, hm, redisHmsetOp, sendMessageOp,
      hsend]

/-- A single-field `HSET` read back at the written key: the written field
holds the new value, every other stored field survives. -/
theorem storeHmset_state_lookup (st : Store) (k : Nat) (target : States) :
    ((storeHmset st k (stateMapping target)) k).lookup "state" =
      some target.value ∧
    ∀ f v, f ≠ "state" → (st k).lookup f = some v →
      ((storeHmset st k (stateMapping target)) k).lookup f = some v := by
  have hst : (storeHmset st k (stateMapping target)) k =
      recSet (st k) "state" target.value := by
    simp [storeHmset, stateMapping, recHmset]
  constructor
  · rw [hst]
    exact recSet_lookup_self (st k) "state" target.value
  · intro f v hf hv
    rw [hst, recSet_lookup_other _ _ _ _ hf]
    exact hv

/-- C8 counterexample: a stale extra field survives a state write.  User 5
holds `{state: questions, note: x}`; after the "return to main menu"
text is processed, the record still contains `note = x` alongside the new
`state = main_menu` — the write merged, it did not replace. -/
theorem C8_counterexample :
    ((process_update envAllOk (updText "Вернуться в главное меню")
      ⟨storeStale, [], []⟩).2.redis 5).lookup "note" = some "x" ∧
    ((process_update envAllOk (updText "Вернуться в главное меню")
      ⟨storeStale, [], []⟩).2.redis 5).lookup "state" = some "main_menu" := by
  refine ⟨rfl, rfl⟩

/-- C8 (amended): the store is keyed by user id, so a user has at most one
record; a state write by any of the three state-writing handlers sets the
`state` field of that record and merges with, rather than replaces, the
previously stored record: every other stored field survives. -/
theorem C8_state_write_merges (env : Env) (u : Update) (m : Message)
    (h : Handler) (s : Sys) (hm : u.message = some m)
    (hh : h = Handler.returnToMainMenu ∨ h = Handler.questionAboutProgram ∨
      h = Handler.getRecommendation) :
    ∃ target : States,
      ((runHandler env h u s).2.redis (clientIdOf m)).lookup "state" =
        some target.value ∧
      ∀ f v, f ≠ "state" → (s.redis (clientIdOf m)).lookup f = some v →
        ((runHandler env h u s).2.redis (clientIdOf m)).lookup f =
          some v := by
  rcases hh with h1 | h1 | h1 <;> subst h1
  · refine ⟨States.MAIN_MENU, ?_, ?_⟩
    · rw [show (runHandler env .returnToMainMenu u s).2.redis = _ from
        return_to_main_menu_redis env u m s hm]
      exact (storeHmset_state_lookup s.redis (clientIdOf m) .MAIN_MENU).1
    · intro f v hf hv
      rw [show (runHandler env .returnToMainMenu u s).2.redis = _ from
        return_to_main_menu_redis env u m s hm]
      exact (storeHmset_state_lookup s.redis (clientIdOf m)
        .MAIN_MENU).2 f v hf hv
  · refine ⟨States.QUESTIONS, ?_, ?_⟩
    · rw [show (runHandler env .questionAboutProgram u s).2.redis = _ from
        question_about_program_redis env u m s hm]
      exact (storeHmset_state_lookup s.redis (clientIdOf m) .QUESTIONS).1
    · intro f v hf hv
      rw [show (runHandler env .questionAboutProgram u s).2.redis = _ from
        question_about_program_redis env u m s hm]
      exact (storeHmset_state_lookup s.redis (clientIdOf m)
        .QUESTIONS).2 f v hf hv
  · refine ⟨States.RECOMMENDATION, ?_, ?_⟩
    · rw [show (runHandler env .getRecommendation u s).2.redis = _ from
        get_recommendation_redis env u m s hm]
      exact (storeHmset_state_lookup s.redis (clientIdOf m)
        .RECOMMENDATION).1
    · intro f v hf hv
      rw [show (runHandler env .getRecommendation u s).2.redis = _ from
        get_recommendation_redis env u m s hm]
      exact (storeHmset_state_lookup s.redis (clientIdOf m)
        .RECOMMENDATION).2 f v hf hv

/-- Witness for C8 (amended): the stale `note` field of user 5's record
survives the default handler's state write, and the state field is
updated. -/
theorem C8_witness :
    ((runHandler envAllOk .returnToMainMenu
      (updText "Вернуться в главное меню")
      ⟨storeStale, [], []⟩).2.redis 5).lookup "note" = some "x" ∧
    ((runHandler envAllOk .returnToMainMenu
      (updText "Вернуться в главное меню")
      ⟨storeStale, [], []⟩).2.redis 5).lookup "state" =
      some "main_menu" := by
  obtain ⟨target, h1, h2⟩ := C8_state_write_merges envAllOk
    (updText "Вернуться в главное меню")
    (msgFrom5 (some "Вернуться в главное меню")) .returnToMainMenu
    ⟨storeStale, [], []⟩ rfl (Or.inl rfl)
  exact ⟨h2 "note" "x" (by decide) rfl, rfl⟩

/-- Default handler: its results are among the messages it sent, at most
two of them. -/
theorem return_to_main_menu_results_sent (env : Env) (u : Update)
    (s s' : Sys) (r : List SendResult)
    (h : process_return_to_main_menu env u s = (.ok r, s')) :
    r.length ≤ 2 ∧
    List.Sublist (sentMessages s.trace ++ r) (sentMessages s'.trace) := by
  cases hm : u.message with
  | none => simp [process_return_to_main_menu, hm] at h
  | some m =>
    cases hsend : env.sendOk with
    | false =>
      simp [process_return_to_main_menu, hm, sendMessageOp, redisHmsetOp,
        hsend] at h
    | true =>
      simp [process_return_to_main_menu, hm, sendMessageOp, redisHmsetOp,
        hsend] at h
      obtain ⟨hr, hs'⟩ := h
      subst hr
      subst hs'
      refine ⟨by simp, ?_⟩
      simp [sentMessages, List.filterMap_append, List.filterMap]

/-- Enter-`QUESTIONS` handler: its results are among the messages it
sent, at most two of them. -/
theorem question_about_program_results_sent (env : Env) (u : Update)
    (s s' : Sys) (r : List SendResult)
    (h : process_question_about_program env u s = (.ok r, s')) :
    r.length ≤ 2 ∧
    List.Sublist (sentMessages s.trace ++ r) (sentMessages s'.trace) := by
  cases hm : u.message with
  | none => simp [process_question_about_program, hm] at h
  | some m =>
    cases hsend : env.sendOk with
    | false =>
      simp [process_question_about_program, hm, sendMessageOp,
        redisHmsetOp, hsend] at h
    | true =>
      simp [process_question_about_program, hm, sendMessageOp,
        redisHmsetOp, hsend] at h
      obtain ⟨hr, hs'⟩ := h
      subst hr
      subst hs'
      refine ⟨by simp, ?_⟩
      simp [sentMessages, List.filterMap_append, List.filterMap]

/-- Enter-`RECOMMENDATION` handler: its results are among the messages it
sent, at most two of them. -/
theorem get_recommendation_results_sent (env : Env) (u : Update)
    (s s' : Sys) (r : List SendResult)
    (h : process_get_recommendation env u s = (.ok r, s')) :
    r.length ≤ 2 ∧
    List.Sublist (sentMessages s.trace ++ r) (sentMessages s'.trace) := by
  cases hm : u.message with
  | none => simp [process_get_recommendation, hm] at h
  | some m =>
    cases hsend : env.sendOk with
    | false =>
      simp [process_get_recommendation, hm, sendMessageOp, redisHmsetOp,
        hsend] at h
    | true =>
      simp [process_get_recommendation, hm, sendMessageOp, redisHmsetOp,
        hsend] at h
      obtain ⟨hr, hs'⟩ := h
      subst hr
      subst hs'
      refine ⟨by simp, ?_⟩
      simp [sentMessages, List.filterMap_append, List.filterMap]

/-- Start handler: its results are among the messages it sent, at most
two of them. -/
theorem start_command_results_sent (env : Env) (u : Update)
    (s s' : Sys) (r : List SendResult)
    (h : process_start_command env u s = (.ok r, s')) :
    r.length ≤ 2 ∧
    List.Sublist (sentMessages s.trace ++ r) (sentMessages s'.trace) := by
  cases hm : u.message with
  | none => simp [process_start_command, hm] at h
  | some m =>
    cases hc : env.catalogOk with
    | false =>
      simp [process_start_command, hm, getProgramsOp, redisHmsetOp,
        redisDeleteOp, hc] at h
    | true =>
      cases hsend : env.sendOk with
      | false =>
        simp [process_start_command, process_return_to_main_menu, hm,
          getProgramsOp, sendMessageOp, redisHmsetOp, redisDeleteOp, hc,
          hsend] at h
      | true =>
        simp [process_start_command, process_return_to_main_menu, hm,
          getProgramsOp, sendMessageOp, redisHmsetOp, redisDeleteOp, hc,
          hsend] at h
        obtain ⟨hr, hs'⟩ := h
        subst hr
        subst hs'
        refine ⟨by simp, ?_⟩
        simp [sentMessages, List.filterMap_append, List.filterMap]

/-- Question handler: its results are among the messages it sent, at most
two of them (the interim wait message is sent but not returned). -/
theorem question_results_sent (env : Env) (u : Update)
    (s s' : Sys) (r : List SendResult)
    (h : process_question env u s = (.ok r, s')) :
    r.length ≤ 2 ∧
    List.Sublist (sentMessages s.trace ++ r) (sentMessages s'.trace) := by
  cases hm : u.message with
  | none => simp [process_question, hm] at h
  | some m =>
    cases hsend : env.sendOk with
    | false => simp [process_question, hm, sendMessageOp, hsend] at h
    | true =>
      cases hc : env.catalogOk with
      | false =>
        simp [process_question, hm, sendMessageOp, getProgramsOp, hsend,
          hc] at h
      | true =>
        cases ha : env.answerOk with
        | false =>
          simp [process_question, hm, sendMessageOp, getProgramsOp,
            answerQuestionOp, hsend, hc, ha] at h
        | true =>
          simp [process_question, hm, sendMessageOp, getProgramsOp,
            answerQuestionOp, hsend, hc, ha] at h
          obtain ⟨hr, hs'⟩ := h
          subst hr
          subst hs'
          refine ⟨by simp, ?_⟩
          simp [sentMessages, List.filterMap_append, List.filterMap]

/-- Recommendation handler: its results are among the messages it sent,
at most two of them (the interim wait message is sent but not
returned). -/
theorem recommendation_results_sent (env : Env) (u : Update)
    (s s' : Sys) (r : List SendResult)
    (h : process_recommendation env u s = (.ok r, s')) :
    r.length ≤ 2 ∧
    List.Sublist (sentMessages s.trace ++ r) (sentMessages s'.trace) := by
  cases hm : u.message with
  | none => simp [process_recommendation, hm] at h
  | some m =>
    cases htext : m.text with
    | none => simp [process_recommendation, hm, htext] at h
    | some t =>
      cases h1 : env.notesCreateOk with
      | false =>
        simp [process_recommendation, hm, htext, createSpecificOp, h1] at h
      | true =>
        cases h2 : env.notesListOk with
        | false =>
          simp [process_recommendation, hm, htext, createSpecificOp,
            getSpecificsOp, h1, h2] at h
        | true =>
          cases h3 : env.catalogOk with
          | false =>
            simp [process_recommendation, hm, htext, createSpecificOp,
              getSpecificsOp, getProgramsOp, h1, h2, h3] at h
          | true =>
            cases h4 : env.recommendOk with
            | false =>
              simp [process_recommendation, hm, htext, createSpecificOp,
                getSpecificsOp, getProgramsOp, provideRecommendationOp,
                h1, h2, h3, h4] at h
            | true =>
              cases h5 : env.sendOk with
              | false =>
                simp [process_recommendation, hm, htext, createSpecificOp,
                  getSpecificsOp, getProgramsOp, provideRecommendationOp,
                  sendMessageOp, h1, h2, h3, h4, h5] at h
              | true =>
                simp [process_recommendation, hm, htext, createSpecificOp,
                  getSpecificsOp, getProgramsOp, provideRecommendationOp,
                  sendMessageOp, h1, h2, h3, h4, h5] at h
                obtain ⟨hr, hs'⟩ := h
                subst hr
                subst hs'
                refine ⟨by simp, ?_⟩
                simp [sentMessages, List.filterMap_append, List.filterMap]

/-- Any handler: its results are among the messages it sent, at most two
of them. -/
theorem runHandler_results_sent (env : Env) (hh : Handler) (u : Update)
    (s s' : Sys) (r : List SendResult)
    (h : runHandler env hh u s = (.ok r, s')) :
    r.length ≤ 2 ∧
    List.Sublist (sentMessages s.trace ++ r) (sentMessages s'.trace) := by
  cases hh
  · exact start_command_results_sent env u s s' r h
  · exact question_about_program_results_sent env u s s' r h
  · exact get_recommendation_results_sent env u s s' r h
  · exact return_to_main_menu_results_sent env u s s' r h
  · exact question_results_sent env u s s' r h
  · exact recommendation_results_sent env u s s' r h

/-- A successful primary attempt is a successful handler run. -/
theorem primaryAttempt_ok (env : Env) (u : Update) (s s' : Sys)
    (r : List SendResult)
    (hp : primaryAttempt env u s = (.ok r, s')) :
    ∃ hh, runHandler env hh u s = (.ok r, s') := by
  cases hd : determine_update_type u with
  | error e =>
    simp only [primaryAttempt, hd] at hp
    simp at hp
  | ok t =>
    cases hsel : process_update_based_on_its_type s.redis u t with
    | error e =>
      simp only [primaryAttempt, hd, hsel] at hp
      simp at hp
    | ok hh =>
      simp only [primaryAttempt, hd, hsel] at hp
      exact ⟨hh, hp⟩

/-- C9 counterexample: in the question flow two messages are actually
sent through the messaging client (the interim wait message and the
answer) but the returned list carries exactly one record — so the result
list does not contain one record per message actually sent. -/
theorem C9_counterexample :
    (process_update envAllOk (updText "Сложно ли учиться?")
      ⟨storeQuestions, [], []⟩).1.length = 1 ∧
    (sentMessages (process_update envAllOk (updText "Сложно ли учиться?")
      ⟨storeQuestions, [], []⟩).2.trace).length = 2 := by
  refine ⟨rfl, rfl⟩

/-- C9 (amended): over a whole `process_update` invocation, the returned
list is a subsequence of the messages actually sent during that
invocation — every record corresponds to a sent message, though interim
wait messages are sent without producing a record — and at most two
results are returned. -/
theorem C9_results_subsequence_of_sent (env : Env) (u : Update)
    (store : Store) (notes : List (Nat × String)) :
    (process_update env u ⟨store, notes, []⟩).1.length ≤ 2 ∧
    List.Sublist (process_update env u ⟨store, notes, []⟩).1
      (sentMessages (process_update env u ⟨store, notes, []⟩).2.trace) := by
  unfold process_update
  cases hp : primaryAttempt env u ⟨store, notes, []⟩ with
  | mk fst s1 =>
    cases fst with
    | ok r =>
      obtain ⟨hh, hrun⟩ := primaryAttempt_ok env u ⟨store, notes, []⟩ s1 r hp
      have hspec := runHandler_results_sent env hh u ⟨store, notes, []⟩ s1
        r hrun
      simp only [sentMessages, List.filterMap_nil, List.nil_append] at hspec
      dsimp only
      exact ⟨hspec.1, hspec.2⟩
    | error e =>
      dsimp only
      cases hd : process_return_to_main_menu env u s1 with
      | mk fst2 s2 =>
        cases fst2 with
        | ok r2 =>
          have hspec := return_to_main_menu_results_sent env u s1 s2 r2 hd
          dsimp only
          refine ⟨hspec.1, ?_⟩
          exact List.Sublist.trans
            (List.sublist_append_right (sentMessages s1.trace) r2) hspec.2
        | error e2 =>
          dsimp only
          simp
